import Mathlib

/-!
A shallow embedding of the TinyYolov2 decode / training-loss core from
`src/tinyYolov2/TinyYolov2.ts` (the anchor-grid decoder, threshold filter,
loss-mask combination and loss aggregation), together with proofs of the
specified properties.

Tensors are embedded as functions from (row, col, anchor, channel) indices
to real numbers; the loops over the grid become lists over `List.range`.
Collaborators that live outside the given source file (`sigmoid` from
`../utils`, the mask/assignment builders, non-max suppression) are modelled
from the spec; each such definition says so in its doc comment.
-/

noncomputable section

open Classical

/-- Image dimensions (`Dimensions` in `../types`): a width/height pair. -/
structure Dimensions where
  width : ℝ
  height : ℝ

/-- An anchor prior (a `Point` in the source): `x` is the prior width and
`y` the prior height, in grid-cell units. -/
structure Point where
  x : ℝ
  y : ℝ

/-- Axis-aligned box (`../BoundingBox`), kept as its four corner coordinates
`(left, top, right, bottom)`. -/
@[ext]
structure BoundingBox where
  left : ℝ
  top : ℝ
  right : ℝ
  bottom : ℝ

/-- `BoundingBox.rescale`: modelled from the spec (§4.6 step 4): boxes are
rescaled to the detector's working resolution before suppression. -/
def BoundingBox.rescale (b : BoundingBox) (s : ℝ) : BoundingBox :=
  ⟨b.left * s, b.top * s, b.right * s, b.bottom * s⟩

/-- A rect `(x, y, width, height)`; `BoundingBox.toRect` converts corner form
to this form for the final `ObjectDetection`. -/
structure Rect where
  x : ℝ
  y : ℝ
  width : ℝ
  height : ℝ

/-- `BoundingBox.toRect` (used at `TinyYolov2.ts` line 131). -/
def BoundingBox.toRect (b : BoundingBox) : Rect :=
  ⟨b.left, b.top, b.right - b.left, b.bottom - b.top⟩

/-- The network weights (`NetParams`). Their contents feed only the
convolutional backbone, which is out of scope (spec §1); the decode/loss core
only ever tests them for presence, so they are modelled as an opaque token. -/
structure NetParams where
  dummy : Unit

/-- The configuration surface fixed at construction (`TinyYolov2Config`),
restricted to the fields the decode/loss core reads.  `withClassScores` is an
optional boolean in the source (`withClassScores?: boolean`), modelled as an
`Option Bool` (`none` = absent). -/
structure TinyYolov2Config where
  withClassScores : Option Bool
  classes : List String
  anchors : List Point
  iouThreshold : ℝ
  noObjectScale : ℝ
  objectScale : ℝ
  coordScale : ℝ
  classScale : ℝ

/-- The `TinyYolov2` instance state: the validated configuration plus the
possibly-absent parameter bundle (`this.params` from the `NeuralNetwork`
base class, absent until a load step ran). -/
structure TinyYolov2 where
  _config : TinyYolov2Config
  params : Option NetParams

/-- `get config()` (line 37). -/
def TinyYolov2.config (net : TinyYolov2) : TinyYolov2Config :=
  net._config

/-- `get withClassScores()` (lines 41-43):
`this.config.withClassScores || this.config.classes.length > 1`.
A JS `undefined` flag is falsy, hence `Option.getD false`. -/
def TinyYolov2.withClassScores (net : TinyYolov2) : Bool :=
  net.config.withClassScores.getD false || decide (net.config.classes.length > 1)

/-- `get boxEncodingSize()` (lines 45-47):
`5 + (this.withClassScores ? this.config.classes.length : 0)`. -/
def TinyYolov2.boxEncodingSize (net : TinyYolov2) : ℕ :=
  5 + (if net.withClassScores then net.config.classes.length else 0)

/-- `this.config.anchors[anchor]` (lines 251-252); out-of-range access is
given a zero prior (the decode loop only uses indices below
`anchors.length`). -/
def TinyYolov2.anchorAt (net : TinyYolov2) (anchor : ℕ) : Point :=
  net.config.anchors.getD anchor ⟨0, 0⟩

/-- Modelled from the spec: `sigmoid` is imported from `../utils`, outside the
given source file; the spec (Glossary, "Squash") defines it as the logistic
sigmoid mapping any real value into `(0,1)`, i.e. `x ↦ 1 / (1 + exp (-x))`. -/
def sigmoid (x : ℝ) : ℝ :=
  1 / (1 + Real.exp (-x))

/-- The raw backbone output, reshaped as in `extractBoxes` line 232 to
`[numCells, numCells, numBoxes, boxEncodingSize]` and read through `get`:
channels 0-3 are the box encoding, channel 4 the objectness logit, channels
5.. the class logits. -/
abbrev YoloOutput := ℕ → ℕ → ℕ → ℕ → ℝ

/-- One decoded result pushed by the `extractBoxes` loop (lines 262-267). -/
structure DetectionResult where
  box : BoundingBox
  score : ℝ
  classLabel : ℕ
  row : ℕ
  col : ℕ
  anchor : ℕ

/-- The soft-max over the class-logit slice (line 237:
`tf.softmax(reshaped.slice([0,0,0,5], ...), 3)`), evaluated at class `i` of
slot `(row, col, anchor)`. -/
def classScoresAt (net : TinyYolov2) (out : YoloOutput) (row col anchor i : ℕ) : ℝ :=
  Real.exp (out row col anchor (5 + i)) /
    ∑ j ∈ Finset.range net.config.classes.length, Real.exp (out row col anchor (5 + j))

/-- `extractPredictedClass` (lines 279-288): list the class probabilities with
their labels and `reduce` to the arg-max
(`max.classScore > curr.classScore ? max : curr`).  The JS `reduce` with no
initial value throws on an empty class list — a configuration rejected by
`validateConfig` (spec §4.1); the `[]` branch returns a junk value and the
theorems that need it carry a positive-class-count hypothesis. -/
def extractPredictedClass (numClasses : ℕ) (score : ℕ → ℝ) : ℝ × ℕ :=
  match (List.range numClasses).map (fun i => (score i, i)) with
  | [] => (0, 0)
  | h :: t => t.foldl (fun m c => if m.1 > c.1 then m else c) h

/-- The body of the decode loop in `extractBoxes` (lines 247-267) for one
`(row, col, anchor)` slot. -/
def slotResult (net : TinyYolov2) (out : YoloOutput) (numCells : ℕ) (dims : Dimensions)
    (row col anchor : ℕ) : DetectionResult :=
  let inputSize := max dims.width dims.height
  let correctionFactorX := inputSize / dims.width
  let correctionFactorY := inputSize / dims.height
  let score := sigmoid (out row col anchor 4)
  let ctX := ((col + sigmoid (out row col anchor 0)) / numCells) * correctionFactorX
  let ctY := ((row + sigmoid (out row col anchor 1)) / numCells) * correctionFactorY
  let width := ((Real.exp (out row col anchor 2) * (net.anchorAt anchor).x) / numCells) * correctionFactorX
  let height := ((Real.exp (out row col anchor 3) * (net.anchorAt anchor).y) / numCells) * correctionFactorY
  let x := ctX - width / 2
  let y := ctY - height / 2
  let cls :=
    if net.withClassScores then
      extractPredictedClass net.config.classes.length (fun i => classScoresAt net out row col anchor i)
    else (1, 0)
  { box := ⟨x, y, x + width, y + height⟩
    score := score * cls.1
    classLabel := cls.2
    row := row
    col := col
    anchor := anchor }

/-- Line 248: `if (!scoreThreshold || score > scoreThreshold)`.  An absent or
zero threshold is falsy in JS, so every slot passes then. -/
def passesThreshold (scoreThreshold : Option ℝ) (score : ℝ) : Bool :=
  match scoreThreshold with
  | none => true
  | some t => decide (t = 0) || decide (score > t)

/-- The triple loop of `extractBoxes` (lines 244-246) enumerating every
`(row, col, anchor)` slot in iteration order. -/
def allSlots (numCells numBoxes : ℕ) : List (ℕ × ℕ × ℕ) :=
  (List.range numCells).flatMap fun row =>
    (List.range numCells).flatMap fun col =>
      (List.range numBoxes).map fun anchor => (row, col, anchor)

/-- `extractBoxes` (lines 217-277): every slot whose squashed objectness
score passes the threshold test contributes the decoded `slotResult`. -/
def TinyYolov2.extractBoxes (net : TinyYolov2) (out : YoloOutput) (numCells : ℕ)
    (dims : Dimensions) (scoreThreshold : Option ℝ) : List DetectionResult :=
  ((allSlots numCells net.config.anchors.length).filter fun s =>
      passesThreshold scoreThreshold (sigmoid (out s.1 s.2.1 s.2.2 4))).map fun s =>
    slotResult net out numCells dims s.1 s.2.1 s.2.2

/-- Spec §4.2 `BoxCodec.decode`, written from the spec's own formulas:
center, exponential size decoding, and the corner-form box. -/
def specDecode (row col : ℕ) (tx ty tw th : ℝ) (priorWidth priorHeight : ℝ)
    (numCells : ℕ) (cfX cfY : ℝ) : BoundingBox :=
  let centerX := (col + sigmoid tx) / numCells * cfX
  let centerY := (row + sigmoid ty) / numCells * cfY
  let w := Real.exp tw * priorWidth / numCells * cfX
  let h := Real.exp th * priorHeight / numCells * cfY
  ⟨centerX - w / 2, centerY - h / 2, centerX + w / 2, centerY + h / 2⟩

/-- **C1**: for every `(row, col, anchor)` slot of the raw output, the box
decoded by `extractBoxes`'s loop body equals the spec's geometry transform
with `correctionFactorX = max(width, height) / width` and
`correctionFactorY = max(width, height) / height` of the reshaped input
dimensions. -/
theorem extractBoxes_decodes_spec_geometry (net : TinyYolov2) (out : YoloOutput)
    (numCells : ℕ) (dims : Dimensions) (row col anchor : ℕ) :
    (slotResult net out numCells dims row col anchor).box =
      specDecode row col (out row col anchor 0) (out row col anchor 1)
        (out row col anchor 2) (out row col anchor 3)
        (net.anchorAt anchor).x (net.anchorAt anchor).y numCells
        (max dims.width dims.height / dims.width)
        (max dims.width dims.height / dims.height) := by
  simp only [slotResult, specDecode]
  ext <;> ring

theorem sigmoid_pos (x : ℝ) : 0 < sigmoid x := by
  unfold sigmoid
  positivity

theorem sigmoid_lt_one (x : ℝ) : sigmoid x < 1 := by
  unfold sigmoid
  rw [div_lt_one (by positivity)]
  linarith [Real.exp_pos (-x)]

/-- A slot that passes a raised threshold passes any lower one, for the
positive scores produced by `sigmoid` (this covers the JS falsy-zero branch
of the test on line 248). -/
theorem passesThreshold_mono {t₁ t₂ s : ℝ} (h12 : t₁ ≤ t₂) (hs : 0 < s)
    (h : passesThreshold (some t₂) s = true) : passesThreshold (some t₁) s = true := by
  simp only [passesThreshold, Bool.or_eq_true, decide_eq_true_eq] at h ⊢
  by_cases h1 : t₁ = 0
  · exact Or.inl h1
  · refine Or.inr ?_
    rcases h with h | h
    · have : t₁ < 0 := lt_of_le_of_ne (h ▸ h12) h1
      linarith
    · linarith

/-- The inference errors raised synchronously by `TinyYolov2`
(`throw new Error(...)` at lines 54 and 100). -/
inductive TinyYolov2Error where
  | notLoaded
  | unknownInputSize
  | invalidInputSize
deriving DecidableEq

/-- The preprocessed image batch (`NetInput`).  Image ingestion is out of
scope (spec §1); the core only passes it through to the backbone, so it is
modelled as an opaque token. -/
structure NetInput where
  dummy : Unit

/-- `forwardInput` (lines 49-85): fail with the not-loaded error when
`this.params` is absent, otherwise run the convolutional backbone.  The
backbone itself (lines 57-82) is the out-of-scope feature extractor
(spec §1) and is passed in as an opaque function producing the reshaped
single-image output grid. -/
def TinyYolov2.forwardInput (net : TinyYolov2)
    (backbone : NetParams → NetInput → ℕ → YoloOutput)
    (input : NetInput) (inputSize : ℕ) : Except TinyYolov2Error YoloOutput :=
  match net.params with
  | none => .error .notLoaded
  | some p => .ok (backbone p input inputSize)

/-- Modelled from the spec: `computeIous`-free box overlap used by the
suppression collaborator (Glossary "IoU": intersection-over-union overlap
ratio between two boxes). -/
def iou (a b : BoundingBox) : ℝ :=
  let interWidth := max 0 (min a.right b.right - max a.left b.left)
  let interHeight := max 0 (min a.bottom b.bottom - max a.top b.top)
  let interArea := interWidth * interHeight
  let areaA := (a.right - a.left) * (a.bottom - a.top)
  let areaB := (b.right - b.left) * (b.bottom - b.top)
  interArea / (areaA + areaB - interArea)

/-- Stable insertion into a list of indices kept in descending-score order. -/
def insertByScoreDesc (score : ℕ → ℝ) (i : ℕ) : List ℕ → List ℕ
  | [] => [i]
  | j :: t => if score j ≥ score i then j :: insertByScoreDesc score i t else i :: j :: t

/-- Stable descending-score sort of a list of indices. -/
def sortByScoreDesc (score : ℕ → ℝ) : List ℕ → List ℕ
  | [] => []
  | i :: t => insertByScoreDesc score i (sortByScoreDesc score t)

/-- Modelled from the spec: `nonMaxSuppression`
(`../commons/nonMaxSuppression`) is outside the given source.  Spec §1, §6
and the Glossary describe it as the generic greedy box suppression: order the
candidates by descending score, keep a candidate only when its IoU with every
already-kept box does not exceed the threshold, and return the surviving
indices. -/
def nonMaxSuppression (boxes : List BoundingBox) (scores : List ℝ)
    (iouThreshold : ℝ) : List ℕ :=
  let order := sortByScoreDesc (fun i => scores.getD i 0) (List.range boxes.length)
  order.foldl
    (fun kept i =>
      if kept.all fun j =>
          decide (iou (boxes.getD i ⟨0, 0, 0, 0⟩) (boxes.getD j ⟨0, 0, 0, 0⟩) ≤ iouThreshold)
      then kept ++ [i] else kept)
    []

/-- A final detection (`ObjectDetection`), carrying the original image
dimensions for coordinate reporting (lines 127-134). -/
structure ObjectDetection where
  score : ℝ
  className : String
  relativeBox : Rect
  imageDims : Dimensions

/-- `detect` (lines 91-137), from the forward pass on: run `forwardInput`
(propagating its not-loaded error), extract and threshold-filter the boxes,
run non-max suppression on the rescaled boxes, and map the surviving indices
back to typed detections.  Input ingestion and the named-input-size table
(`INPUT_SIZES`, outside the given source) are elided: the working resolution
arrives as a number. -/
def TinyYolov2.detect (net : TinyYolov2)
    (backbone : NetParams → NetInput → ℕ → YoloOutput)
    (input : NetInput) (inputSize numCells : ℕ)
    (reshapedDims inputDims : Dimensions)
    (scoreThreshold : Option ℝ) : Except TinyYolov2Error (List ObjectDetection) :=
  match net.forwardInput backbone input inputSize with
  | .error e => .error e
  | .ok out =>
    let results := net.extractBoxes out numCells reshapedDims scoreThreshold
    let boxes := results.map (fun r => r.box)
    let scores := results.map (fun r => r.score)
    let classNames := results.map (fun r => net.config.classes.getD r.classLabel "")
    let indices :=
      nonMaxSuppression (boxes.map (fun b => b.rescale inputSize)) scores net.config.iouThreshold
    .ok (indices.map fun idx =>
      { score := scores.getD idx 0
        className := classNames.getD idx ""
        relativeBox := (boxes.getD idx ⟨0, 0, 0, 0⟩).toRect
        imageDims := inputDims })

/-- "Slot `(r, c, a)` contributes a result": some element of the
`extractBoxes` result list originates at that grid position. -/
def contributes (net : TinyYolov2) (out : YoloOutput) (numCells : ℕ)
    (dims : Dimensions) (scoreThreshold : Option ℝ) (r c a : ℕ) : Prop :=
  ∃ res ∈ net.extractBoxes out numCells dims scoreThreshold,
    res.row = r ∧ res.col = c ∧ res.anchor = a

theorem mem_allSlots {numCells numBoxes r c a : ℕ} :
    (r, c, a) ∈ allSlots numCells numBoxes ↔ r < numCells ∧ c < numCells ∧ a < numBoxes := by
  simp only [allSlots, List.mem_flatMap, List.mem_map, List.mem_range, Prod.mk.injEq]
  constructor
  · rintro ⟨r', hr', c', hc', a', ha', rfl, rfl, rfl⟩
    exact ⟨hr', hc', ha'⟩
  · rintro ⟨hr, hc, ha⟩
    exact ⟨r, hr, c, hc, a, ha, rfl, rfl, rfl⟩

/-- **C2**: with a configured positive score threshold, a `(row, col, anchor)`
slot contributes a result exactly when its squashed objectness score strictly
exceeds the threshold; and when every slot's squashed score is at most the
threshold, `detect` completes without error with an empty detection list. -/
theorem extractBoxes_threshold_filter (net : TinyYolov2)
    (backbone : NetParams → NetInput → ℕ → YoloOutput) (input : NetInput)
    (inputSize numCells : ℕ) (reshapedDims inputDims : Dimensions)
    (p : NetParams) (out : YoloOutput) (t : ℝ) (r c a : ℕ)
    (ht : 0 < t) (hr : r < numCells) (hc : c < numCells)
    (ha : a < net.config.anchors.length) :
    (contributes net out numCells reshapedDims (some t) r c a ↔
      t < sigmoid (out r c a 4)) ∧
    (net.params = some p →
      (∀ r' c' a', sigmoid (backbone p input inputSize r' c' a' 4) ≤ t) →
      net.detect backbone input inputSize numCells reshapedDims inputDims (some t) =
        .ok []) := by
  constructor
  · constructor
    · rintro ⟨res, hres, hrow, hcol, hanch⟩
      unfold TinyYolov2.extractBoxes at hres
      rw [List.mem_map] at hres
      obtain ⟨s, hs, rfl⟩ := hres
      rw [List.mem_filter] at hs
      simp only [slotResult] at hrow hcol hanch
      obtain ⟨hmem, hpass⟩ := hs
      simp only [passesThreshold, Bool.or_eq_true, decide_eq_true_eq] at hpass
      rcases hpass with h0 | hgt
      · exact absurd h0 (ne_of_gt ht)
      · rw [← hrow, ← hcol, ← hanch]
        exact hgt
    · intro hgt
      refine ⟨slotResult net out numCells reshapedDims r c a, ?_, rfl, rfl, rfl⟩
      unfold TinyYolov2.extractBoxes
      refine List.mem_map_of_mem _ (List.mem_filter.2 ⟨mem_allSlots.2 ⟨hr, hc, ha⟩, ?_⟩)
      simp only [passesThreshold, Bool.or_eq_true, decide_eq_true_eq]
      exact Or.inr hgt
  · intro hp hall
    have hres : net.extractBoxes (backbone p input inputSize) numCells reshapedDims (some t) = [] := by
      unfold TinyYolov2.extractBoxes
      rw [List.map_eq_nil_iff, List.filter_eq_nil_iff]
      intro s _
      simp only [passesThreshold, Bool.or_eq_true, decide_eq_true_eq, not_or, not_lt]
      exact ⟨ne_of_gt ht, hall s.1 s.2.1 s.2.2⟩
    simp only [TinyYolov2.detect, TinyYolov2.forwardInput, hp]
    rw [hres]
    simp [nonMaxSuppression, sortByScoreDesc]

/-- **C3 (amended)**: for a fixed input and configuration, raising the score
threshold never increases the number of results produced by the decode/filter
stage: with `t₁ ≤ t₂` the threshold-`t₂` run of `extractBoxes` returns at
most as many results as the threshold-`t₁` run.  (The end-to-end detection
count after suppression is *not* monotone in the threshold; see
`detectCount` and the suppression-interaction section below.) -/
theorem extractBoxes_count_antitone (net : TinyYolov2) (out : YoloOutput)
    (numCells : ℕ) (dims : Dimensions) (t₁ t₂ : ℝ) (h : t₁ ≤ t₂) :
    (net.extractBoxes out numCells dims (some t₂)).length ≤
      (net.extractBoxes out numCells dims (some t₁)).length := by
  unfold TinyYolov2.extractBoxes
  rw [List.length_map, List.length_map]
  exact (List.monotone_filter_right _ fun s hs =>
    passesThreshold_mono h (sigmoid_pos _) hs).length_le

/-- The binary `reduce` step of `extractPredictedClass` always returns one of
its operands, so the fold returns a member of the candidate list. -/
theorem foldl_argmax_mem (h : ℝ × ℕ) (t : List (ℝ × ℕ)) :
    t.foldl (fun m c => if m.1 > c.1 then m else c) h ∈ h :: t := by
  induction t generalizing h with
  | nil => simp
  | cons c t ih =>
    rw [List.foldl_cons]
    by_cases hc : h.1 > c.1
    · rw [if_pos hc]
      rcases List.mem_cons.1 (ih h) with hm | hm
      · exact List.mem_cons.2 (Or.inl hm)
      · exact List.mem_cons.2 (Or.inr (List.mem_cons.2 (Or.inr hm)))
    · rw [if_neg hc]
      rcases List.mem_cons.1 (ih c) with hm | hm
      · exact List.mem_cons.2 (Or.inr (List.mem_cons.2 (Or.inl hm)))
      · exact List.mem_cons.2 (Or.inr (List.mem_cons.2 (Or.inr hm)))

/-- With at least one class, the predicted class record is one of the listed
`(probability, label)` candidates. -/
theorem extractPredictedClass_mem (n : ℕ) (hn : n ≠ 0) (score : ℕ → ℝ) :
    extractPredictedClass n score ∈ (List.range n).map (fun i => (score i, i)) := by
  unfold extractPredictedClass
  cases hl : (List.range n).map (fun i => (score i, i)) with
  | nil =>
    have : n = 0 := by simpa using congrArg List.length hl
    exact absurd this hn
  | cons h t =>
    exact foldl_argmax_mem h t

theorem classScoresAt_pos (net : TinyYolov2) (out : YoloOutput) (r c a i : ℕ)
    (hn : net.config.classes.length ≠ 0) : 0 < classScoresAt net out r c a i := by
  unfold classScoresAt
  apply div_pos (Real.exp_pos _)
  apply Finset.sum_pos (fun j _ => Real.exp_pos _)
  simpa [Finset.nonempty_range_iff] using hn

theorem classScoresAt_le_one (net : TinyYolov2) (out : YoloOutput) (r c a i : ℕ)
    (hi : i < net.config.classes.length) : classScoresAt net out r c a i ≤ 1 := by
  unfold classScoresAt
  rw [div_le_one]
  · exact Finset.single_le_sum (f := fun j => Real.exp (out r c a (5 + j)))
      (fun j _ => (Real.exp_pos _).le) (Finset.mem_range.2 hi)
  · apply Finset.sum_pos (fun j _ => Real.exp_pos _)
    exact Finset.nonempty_range_iff.2 (Nat.pos_of_ne_zero fun h0 => by omega).ne'

/-- **C4**: for every raw output tensor and every slot, the final detection
score — the squashed objectness multiplied by the selected class probability
when class scores are enabled — lies in `[0, 1]`.  (The class-count
hypothesis reflects `validateConfig`, which rejects an empty class list when
class scores are in use; see `extractPredictedClass`.) -/
theorem slot_score_in_unit_interval (net : TinyYolov2) (out : YoloOutput)
    (numCells : ℕ) (dims : Dimensions) (r c a : ℕ)
    (hcls : net.withClassScores = true → 1 ≤ net.config.classes.length) :
    0 ≤ (slotResult net out numCells dims r c a).score ∧
      (slotResult net out numCells dims r c a).score ≤ 1 := by
  simp only [slotResult]
  by_cases hw : net.withClassScores
  · rw [if_pos hw]
    have hn : net.config.classes.length ≠ 0 := by
      have := hcls hw
      omega
    have hmem := extractPredictedClass_mem net.config.classes.length hn
      (fun i => classScoresAt net out r c a i)
    rw [List.mem_map] at hmem
    obtain ⟨i, hi, heq⟩ := hmem
    rw [List.mem_range] at hi
    rw [← heq]
    constructor
    · exact mul_nonneg (sigmoid_pos _).le (classScoresAt_pos net out r c a i hn).le
    · exact mul_le_one₀ (sigmoid_lt_one _).le (classScoresAt_pos net out r c a i hn).le
        (classScoresAt_le_one net out r c a i hi)
  · rw [if_neg hw]
    simp only [mul_one]
    exact ⟨(sigmoid_pos _).le, (sigmoid_lt_one _).le⟩

/-- **C8**: with no loaded parameter bundle, `forwardInput` fails
synchronously with the not-loaded error, and `detect` (which calls it)
propagates that error and produces no detections. -/
theorem inference_requires_loaded_params (net : TinyYolov2)
    (backbone : NetParams → NetInput → ℕ → YoloOutput) (input : NetInput)
    (inputSize numCells : ℕ) (reshapedDims inputDims : Dimensions)
    (scoreThreshold : Option ℝ) (h : net.params = none) :
    net.forwardInput backbone input inputSize = .error .notLoaded ∧
      net.detect backbone input inputSize numCells reshapedDims inputDims scoreThreshold =
        .error .notLoaded := by
  constructor
  · simp [TinyYolov2.forwardInput, h]
  · simp [TinyYolov2.detect, TinyYolov2.forwardInput, h]

/-- A 4-D loss-side tensor, indexed like `YoloOutput`. -/
abbrev Mask := ℕ → ℕ → ℕ → ℕ → ℝ

/-- A ground-truth box (`GroundTruth` in `./types`): a box in coordinates
relative to the reshaped image, plus its class label. -/
structure GroundTruth where
  x : ℝ
  y : ℝ
  width : ℝ
  height : ℝ
  classLabel : ℕ

/-- A ground-truth box bound to its `(row, col, anchor)` slot
(`GroundTruthWithGridPosition`). -/
structure GroundTruthWithGridPosition where
  box : BoundingBox
  row : ℕ
  col : ℕ
  anchor : ℕ
  classLabel : ℕ

/-- Modelled from the spec (§4.3): IoU between an anchor prior and a
ground-truth box's width/height with both boxes centered at the same cell —
co-centered boxes intersect in a min-width × min-height rectangle. -/
def iouWH (w1 h1 w2 h2 : ℝ) : ℝ :=
  let inter := min w1 w2 * min h1 h2
  inter / (w1 * h1 + w2 * h2 - inter)

/-- The anchor index maximizing the prior/ground-truth IoU (first wins on
ties), part of the spec-modelled assignment policy (§4.3). -/
def bestAnchor (anchors : List Point) (w h : ℝ) : ℕ :=
  match anchors.enum with
  | [] => 0
  | a0 :: rest =>
    (rest.foldl (fun m cand =>
      if iouWH m.2.x m.2.y w h ≥ iouWH cand.2.x cand.2.y w h then m else cand) a0).1

/-- Modelled from the spec: `assignGroundTruthToAnchors`
(`./assignBoxesToAnchors`) is outside the given source.  Spec §4.3: each
ground-truth box is mapped to the grid cell containing its center
(`row = floor(center_y_in_cells)`, `col = floor(center_x_in_cells)`) and to
the anchor whose prior best matches its width/height under IoU.  The
out-of-grid error report (spec §7) is not modelled; no claim settled here
depends on it. -/
def assignGroundTruthToAnchors (groundTruth : List GroundTruth)
    (anchors : List Point) (numCells : ℕ) : List GroundTruthWithGridPosition :=
  groundTruth.map fun gt =>
    let ctX := gt.x + gt.width / 2
    let ctY := gt.y + gt.height / 2
    { box := ⟨gt.x, gt.y, gt.x + gt.width, gt.y + gt.height⟩
      row := (⌊ctY * numCells⌋).toNat
      col := (⌊ctX * numCells⌋).toNat
      anchor := bestAnchor anchors (gt.width * numCells) (gt.height * numCells)
      classLabel := gt.classLabel }

/-- Modelled from the spec: `createGroundTruthMask`
(`./createGroundTruthMask`) is outside the given source.  Spec §3
(`LossMasks`): an indicator tensor that is 1 on every channel of each
assigned `(row, col, anchor)` slot and 0 elsewhere. -/
def createGroundTruthMask (assigned : List GroundTruthWithGridPosition) : Mask :=
  fun r c a _ch =>
    if assigned.any fun g => decide (g.row = r ∧ g.col = c ∧ g.anchor = a) then 1 else 0

/-- Modelled from the spec: `createCoordAndScoreMasks`
(`./createCoordAndScoreMasks`) is outside the given source.  The score mask
is 1 exactly on the objectness channel (channel 4 of the box encoding,
spec §3). -/
def scoreMask : Mask :=
  fun _ _ _ ch => if ch = 4 then 1 else 0

/-- Modelled from the spec: the coordinate mask is 1 exactly on the four
geometry channels (channels 0-3 of the box encoding, spec §3/§4.4). -/
def coordMask : Mask :=
  fun _ _ _ ch => if ch < 4 then 1 else 0

/-- Line 158: `tf.mul(scoreMask, tf.sub(tf.scalar(1), groundTruthMask))`. -/
def noObjectLossMask (groundTruthMask : Mask) : Mask :=
  fun r c a ch => scoreMask r c a ch * (1 - groundTruthMask r c a ch)

/-- Line 159: `tf.mul(scoreMask, groundTruthMask)`. -/
def objectLossMask (groundTruthMask : Mask) : Mask :=
  fun r c a ch => scoreMask r c a ch * groundTruthMask r c a ch

/-- Line 160: `tf.mul(coordMask, groundTruthMask)`. -/
def coordLossMask (groundTruthMask : Mask) : Mask :=
  fun r c a ch => coordMask r c a ch * groundTruthMask r c a ch

/-- Lines 162-163: `tf.sum(tf.square(tf.mul(mask, lossTensor)))`, the sum
running over the whole 4-D extent of the masked tensor. -/
def squaredSumOverMask (numCells numBoxes numChannels : ℕ) (mask lossTensor : Mask) : ℝ :=
  ∑ r ∈ Finset.range numCells, ∑ c ∈ Finset.range numCells,
    ∑ a ∈ Finset.range numBoxes, ∑ ch ∈ Finset.range numChannels,
      (mask r c a ch * lossTensor r c a ch) ^ 2

/-- Lines 165-166: `tf.mul(tf.scalar(scale), squaredSumOverMask(mask, lossTensor))`. -/
def computeLossTerm (scale : ℝ) (numCells numBoxes numChannels : ℕ)
    (mask lossTensor : Mask) : ℝ :=
  scale * squaredSumOverMask numCells numBoxes numChannels mask lossTensor

/-- `computeNoObjectLoss` (lines 290-292): `tf.sigmoid(outTensor)`. -/
def computeNoObjectLoss (out : YoloOutput) : Mask :=
  fun r c a ch => sigmoid (out r c a ch)

/-- Modelled from the spec: `computeIous` (`./computeIous`) is outside the
given source.  Spec §4.5: at each assigned slot, the IoU between the decoded
prediction originating there and the ground truth assigned there; zero
elsewhere. -/
def computeIous (predBoxes : List DetectionResult)
    (groundTruthBoxes : List GroundTruthWithGridPosition) : Mask :=
  fun r c a _ch =>
    match groundTruthBoxes.find? (fun g => decide (g.row = r ∧ g.col = c ∧ g.anchor = a)) with
    | none => 0
    | some g =>
      match predBoxes.find? (fun pb => decide (pb.row = r ∧ pb.col = c ∧ pb.anchor = a)) with
      | none => 0
      | some pb => iou pb.box g.box

/-- `computeObjectLoss` (lines 294-309): decode the unfiltered predictions,
take their IoUs with the assigned ground truth, and subtract the squashed
raw output (`tf.sub(ious, tf.sigmoid(outTensor))`). -/
def TinyYolov2.computeObjectLoss (net : TinyYolov2)
    (groundTruthBoxes : List GroundTruthWithGridPosition) (out : YoloOutput)
    (numCells : ℕ) (reshapedImgDims : Dimensions) : Mask :=
  fun r c a ch =>
    computeIous (net.extractBoxes out numCells reshapedImgDims none) groundTruthBoxes r c a ch -
      sigmoid (out r c a ch)

/-- Inverse of the logistic squash, used by the spec-modelled encode-target
transform. -/
def logit (p : ℝ) : ℝ :=
  Real.log (p / (1 - p))

/-- Modelled from the spec: `computeBoxAdjustments`
(`./computeBoxAdjustments`) is outside the given source.  Spec §4.2
`encodeTarget`: at each assigned slot the four raw target values are the
algebraic inverse of the decode geometry (inverse squash of the in-cell
center offsets, log of the size-over-prior ratios); zero elsewhere. -/
def computeBoxAdjustments (groundTruthBoxes : List GroundTruthWithGridPosition)
    (anchors : List Point) (numCells : ℕ) : Mask :=
  fun r c a ch =>
    match groundTruthBoxes.find? (fun g => decide (g.row = r ∧ g.col = c ∧ g.anchor = a)) with
    | none => 0
    | some g =>
      let prior := anchors.getD a ⟨0, 0⟩
      let ctX := (g.box.left + g.box.right) / 2 * numCells
      let ctY := (g.box.top + g.box.bottom) / 2 * numCells
      let w := (g.box.right - g.box.left) * numCells
      let h := (g.box.bottom - g.box.top) * numCells
      if ch = 0 then logit (ctX - c)
      else if ch = 1 then logit (ctY - r)
      else if ch = 2 then Real.log (w / prior.x)
      else if ch = 3 then Real.log (h / prior.y)
      else 0

/-- `computeCoordLoss` (lines 311-321): `tf.sub(boxAdjustments, outTensor)`. -/
def computeCoordLoss (groundTruthBoxes : List GroundTruthWithGridPosition)
    (anchors : List Point) (numCells : ℕ) (out : YoloOutput) : Mask :=
  fun r c a ch =>
    computeBoxAdjustments groundTruthBoxes anchors numCells r c a ch - out r c a ch

/-- Modelled from the spec: `createOneHotClassScoreMask`
(`./createOneHotClassScoreMask`) is outside the given source.  Spec §4.5:
the one-hot ground-truth class indicator at each assigned slot. -/
def createOneHotClassScoreMask (groundTruthBoxes : List GroundTruthWithGridPosition) : Mask :=
  fun r c a i =>
    if groundTruthBoxes.any fun g =>
        decide (g.row = r ∧ g.col = c ∧ g.anchor = a ∧ g.classLabel = i)
    then 1 else 0

/-- `computeClassLoss` (lines 323-335): one-hot ground-truth class scores
minus the soft-max of the class-logit slice
(`tf.sub(gtClassScores, classScores)`). -/
def TinyYolov2.computeClassLoss (net : TinyYolov2)
    (groundTruthBoxes : List GroundTruthWithGridPosition) (out : YoloOutput) : Mask :=
  fun r c a i =>
    createOneHotClassScoreMask groundTruthBoxes r c a i - classScoresAt net out r c a i

/-- The five scalars returned by `computeLoss` (lines 196-202). -/
structure YoloLoss where
  noObjectLoss : ℝ
  objectLoss : ℝ
  coordLoss : ℝ
  classLoss : ℝ
  totalLoss : ℝ

/-- The body of `computeLoss` (lines 149-202) past the input-size guard:
assignment, mask combination, the four scaled squared-sum terms
(`classLoss` degenerating to `tf.scalar(0)` without class scores, lines
186-192) and their sum (line 194).  The grid size, derived from the working
resolution inside the out-of-source mask builders, is an explicit parameter
here; `validateTrainConfig` (outside the given source) only checks that the
four scale factors are present, which the config structure guarantees. -/
def TinyYolov2.computeLossParts (net : TinyYolov2) (outTensor : YoloOutput)
    (groundTruth : List GroundTruth) (reshapedImgDims : Dimensions)
    (numCells : ℕ) : YoloLoss :=
  let groundTruthBoxes := assignGroundTruthToAnchors groundTruth net.config.anchors numCells
  let groundTruthMask := createGroundTruthMask groundTruthBoxes
  let numBoxes := net.config.anchors.length
  let noObjectLoss := computeLossTerm net.config.noObjectScale numCells numBoxes
    net.boxEncodingSize (noObjectLossMask groundTruthMask) (computeNoObjectLoss outTensor)
  let objectLoss := computeLossTerm net.config.objectScale numCells numBoxes
    net.boxEncodingSize (objectLossMask groundTruthMask)
    (net.computeObjectLoss groundTruthBoxes outTensor numCells reshapedImgDims)
  let coordLoss := computeLossTerm net.config.coordScale numCells numBoxes
    net.boxEncodingSize (coordLossMask groundTruthMask)
    (computeCoordLoss groundTruthBoxes net.config.anchors numCells outTensor)
  let classLoss :=
    if net.withClassScores then
      computeLossTerm net.config.classScale numCells numBoxes net.config.classes.length
        (fun _ _ _ _ => 1) (net.computeClassLoss groundTruthBoxes outTensor)
    else 0
  { noObjectLoss := noObjectLoss
    objectLoss := objectLoss
    coordLoss := coordLoss
    classLoss := classLoss
    totalLoss := noObjectLoss + objectLoss + coordLoss + classLoss }

/-- `computeLoss` (lines 139-203): `inputSize = Math.max(width, height)`;
`if (!inputSize) throw` — the guard fires exactly on a falsy (zero) working
resolution — otherwise the loss record is computed. -/
def TinyYolov2.computeLoss (net : TinyYolov2) (outTensor : YoloOutput)
    (groundTruth : List GroundTruth) (reshapedImgDims : Dimensions)
    (numCells : ℕ) : Except TinyYolov2Error YoloLoss :=
  if max reshapedImgDims.width reshapedImgDims.height = 0 then .error .invalidInputSize
  else .ok (net.computeLossParts outTensor groundTruth reshapedImgDims numCells)

/-- **C5**: for every assignment of ground-truth boxes and every tensor
index, the object-loss and no-object-loss masks built in `computeLoss` are
disjoint (their product vanishes) and sum to the score mask — the all-ones
indicator over the score channel (channel 4) — so every score slot is
counted by exactly one of the two. -/
theorem loss_masks_partition_score_channel
    (assigned : List GroundTruthWithGridPosition) (r c a ch : ℕ) :
    objectLossMask (createGroundTruthMask assigned) r c a ch *
        noObjectLossMask (createGroundTruthMask assigned) r c a ch = 0 ∧
      objectLossMask (createGroundTruthMask assigned) r c a ch +
        noObjectLossMask (createGroundTruthMask assigned) r c a ch = scoreMask r c a ch ∧
      scoreMask r c a ch = (if ch = 4 then 1 else 0) := by
  unfold objectLossMask noObjectLossMask createGroundTruthMask scoreMask
  refine ⟨?_, by ring, rfl⟩
  split_ifs <;> ring

/-- Every loss term is a scale factor times a sum of squares, hence
non-negative whenever the scale factor is. -/
theorem computeLossTerm_nonneg (scale : ℝ) (numCells numBoxes numChannels : ℕ)
    (mask lossTensor : Mask) (h : 0 ≤ scale) :
    0 ≤ computeLossTerm scale numCells numBoxes numChannels mask lossTensor := by
  unfold computeLossTerm squaredSumOverMask
  positivity

/-- **C6**: with non-negative loss scale factors, each of the four loss
terms returned by `computeLoss` is non-negative. -/
theorem loss_terms_nonneg (net : TinyYolov2) (outTensor : YoloOutput)
    (groundTruth : List GroundTruth) (reshapedImgDims : Dimensions) (numCells : ℕ)
    (h1 : 0 ≤ net.config.noObjectScale) (h2 : 0 ≤ net.config.objectScale)
    (h3 : 0 ≤ net.config.coordScale) (h4 : 0 ≤ net.config.classScale) :
    0 ≤ (net.computeLossParts outTensor groundTruth reshapedImgDims numCells).noObjectLoss ∧
      0 ≤ (net.computeLossParts outTensor groundTruth reshapedImgDims numCells).objectLoss ∧
      0 ≤ (net.computeLossParts outTensor groundTruth reshapedImgDims numCells).coordLoss ∧
      0 ≤ (net.computeLossParts outTensor groundTruth reshapedImgDims numCells).classLoss := by
  simp only [TinyYolov2.computeLossParts]
  refine ⟨computeLossTerm_nonneg _ _ _ _ _ _ h1, computeLossTerm_nonneg _ _ _ _ _ _ h2,
    computeLossTerm_nonneg _ _ _ _ _ _ h3, ?_⟩
  split_ifs
  · exact computeLossTerm_nonneg _ _ _ _ _ _ h4
  · exact le_refl 0

/-- **C7**: `computeLoss` returns `totalLoss` equal to the sum of the four
individual terms, and `classLoss` is zero whenever class scores are
disabled. -/
theorem totalLoss_eq_sum_of_terms (net : TinyYolov2) (outTensor : YoloOutput)
    (groundTruth : List GroundTruth) (reshapedImgDims : Dimensions) (numCells : ℕ) :
    (net.computeLossParts outTensor groundTruth reshapedImgDims numCells).totalLoss =
        (net.computeLossParts outTensor groundTruth reshapedImgDims numCells).noObjectLoss +
          (net.computeLossParts outTensor groundTruth reshapedImgDims numCells).objectLoss +
          (net.computeLossParts outTensor groundTruth reshapedImgDims numCells).coordLoss +
          (net.computeLossParts outTensor groundTruth reshapedImgDims numCells).classLoss ∧
      (net.withClassScores = false →
        (net.computeLossParts outTensor groundTruth reshapedImgDims numCells).classLoss = 0) := by
  constructor
  · rfl
  · intro h
    simp only [TinyYolov2.computeLossParts, h]
    simp

/-- **C9 (counterexample)**: a call whose reshaped dimensions are
`(-1, -1)` has a non-positive working resolution (`max = -1 ≤ 0`), yet
`computeLoss` raises no error: the JS falsy test `!inputSize` only fires on
zero, so the loss record is computed. -/
theorem computeLoss_accepts_negative_resolution :
    max (Dimensions.mk (-1) (-1)).width (Dimensions.mk (-1) (-1)).height ≤ 0 ∧
      (TinyYolov2.mk ⟨none, ["face"], [⟨1, 1⟩], 0.4, 1, 5, 1, 1⟩ none).computeLoss
          (fun _ _ _ _ => 0) [] ⟨-1, -1⟩ 13 =
        .ok ((TinyYolov2.mk ⟨none, ["face"], [⟨1, 1⟩], 0.4, 1, 5, 1, 1⟩ none).computeLossParts
          (fun _ _ _ _ => 0) [] ⟨-1, -1⟩ 13) := by
  constructor
  · simp
  · unfold TinyYolov2.computeLoss
    rw [if_neg]
    simp

/-- **C9 (amended)**: whenever the reshaped image dimensions yield a *zero*
working resolution (`max(width, height) = 0`), `computeLoss` raises the
invalid-input error rather than computing a loss. -/
theorem computeLoss_zero_resolution_error (net : TinyYolov2) (outTensor : YoloOutput)
    (groundTruth : List GroundTruth) (reshapedImgDims : Dimensions) (numCells : ℕ)
    (h : max reshapedImgDims.width reshapedImgDims.height = 0) :
    net.computeLoss outTensor groundTruth reshapedImgDims numCells =
      .error .invalidInputSize := by
  unfold TinyYolov2.computeLoss
  rw [if_pos h]

/-- Modelled from the spec: `validateConfig` (`./config`) is outside the
given source.  Spec §4.1: configuration "fails if it declares zero anchors
or a non-positive class count when class scores are required". -/
def validateConfigOk (config : TinyYolov2Config) : Prop :=
  config.anchors.length ≠ 0 ∧
    ((config.withClassScores.getD false = true ∨ config.classes.length > 1) →
      1 ≤ config.classes.length)

/-- **C10**: for every configuration accepted by the constructor, the
`withClassScores` property is true whenever more than one class is
configured (whatever the flag says), in which case `boxEncodingSize` is
`5 + numClasses`; and `boxEncodingSize` is `5` exactly when at most one
class is configured and the flag is not set to true. -/
theorem withClassScores_forced_by_classes (config : TinyYolov2Config)
    (p : Option NetParams) (hv : validateConfigOk config) :
    (config.classes.length > 1 →
      (TinyYolov2.mk config p).withClassScores = true ∧
        (TinyYolov2.mk config p).boxEncodingSize = 5 + config.classes.length) ∧
    ((TinyYolov2.mk config p).boxEncodingSize = 5 ↔
      config.classes.length ≤ 1 ∧ config.withClassScores.getD false = false) := by
  constructor
  · intro h
    have hw : (TinyYolov2.mk config p).withClassScores = true := by
      simp [TinyYolov2.withClassScores, TinyYolov2.config, h]
    exact ⟨hw, by simp [TinyYolov2.boxEncodingSize, TinyYolov2.config, hw]⟩
  · constructor
    · intro h5
      simp only [TinyYolov2.boxEncodingSize, TinyYolov2.config] at h5
      by_cases hw : (TinyYolov2.mk config p).withClassScores
      · rw [if_pos hw] at h5
        have hlen : config.classes.length = 0 := by omega
        have hflag : config.withClassScores.getD false = true := by
          simp only [TinyYolov2.withClassScores, TinyYolov2.config, hlen,
            Bool.or_eq_true, decide_eq_true_eq] at hw
          rcases hw with hw | hw
          · exact hw
          · omega
        have := hv.2 (Or.inl hflag)
        omega
      · simp only [Bool.not_eq_true, TinyYolov2.withClassScores, TinyYolov2.config,
          Bool.or_eq_false_iff, decide_eq_false_iff_not, not_lt] at hw
        exact ⟨hw.2, hw.1⟩
    · rintro ⟨hlen, hflag⟩
      have hw : (TinyYolov2.mk config p).withClassScores = false := by
        simp only [TinyYolov2.withClassScores, TinyYolov2.config, hflag, Bool.false_or,
          decide_eq_false_iff_not, not_lt]
        omega
      simp [TinyYolov2.boxEncodingSize, hw]

/-! ### Concrete instances used by the witnesses -/

/-- A single-class sample configuration. -/
def sampleConfig : TinyYolov2Config :=
  ⟨none, ["face"], [⟨1, 1⟩], 0.4, 1, 5, 1, 1⟩

/-- A detector with loaded parameters. -/
def sampleNet : TinyYolov2 :=
  ⟨sampleConfig, some ⟨()⟩⟩

/-- A detector whose parameters were never loaded. -/
def unloadedNet : TinyYolov2 :=
  ⟨sampleConfig, none⟩

/-- A raw output grid with every logit zero. -/
def zeroOutput : YoloOutput :=
  fun _ _ _ _ => 0

/-- A square reshaped-input size. -/
def squareDims : Dimensions :=
  ⟨416, 416⟩

/-- An opaque preprocessed input. -/
def sampleInput : NetInput :=
  ⟨()⟩

/-- A backbone producing the all-zero grid. -/
def constBackbone : NetParams → NetInput → ℕ → YoloOutput :=
  fun _ _ _ => zeroOutput

theorem sigmoid_zero : sigmoid 0 = 1 / 2 := by
  unfold sigmoid
  rw [neg_zero, Real.exp_zero]
  norm_num

theorem extractBoxes_threshold_filter_witness :
    sampleNet.detect constBackbone sampleInput 416 13 squareDims squareDims (some (9 / 10)) =
      .ok [] :=
  (extractBoxes_threshold_filter sampleNet constBackbone sampleInput 416 13 squareDims
      squareDims ⟨()⟩ zeroOutput (9 / 10) 0 0 0 (by norm_num) (by norm_num) (by norm_num)
      (by simp [sampleNet, sampleConfig, TinyYolov2.config])).2 rfl
    (fun r' c' a' => by
      show sigmoid 0 ≤ 9 / 10
      rw [sigmoid_zero]
      norm_num)

theorem extractBoxes_count_antitone_witness :
    (sampleNet.extractBoxes zeroOutput 13 squareDims (some (1 / 2))).length ≤
      (sampleNet.extractBoxes zeroOutput 13 squareDims (some (3 / 10))).length :=
  extractBoxes_count_antitone sampleNet zeroOutput 13 squareDims (3 / 10) (1 / 2) (by norm_num)

theorem slot_score_in_unit_interval_witness :
    0 ≤ (slotResult sampleNet zeroOutput 13 squareDims 0 0 0).score ∧
      (slotResult sampleNet zeroOutput 13 squareDims 0 0 0).score ≤ 1 :=
  slot_score_in_unit_interval sampleNet zeroOutput 13 squareDims 0 0 0
    (fun _ => by simp [sampleNet, sampleConfig, TinyYolov2.config])

theorem loss_terms_nonneg_witness :
    0 ≤ (sampleNet.computeLossParts zeroOutput [] squareDims 13).noObjectLoss ∧
      0 ≤ (sampleNet.computeLossParts zeroOutput [] squareDims 13).objectLoss ∧
      0 ≤ (sampleNet.computeLossParts zeroOutput [] squareDims 13).coordLoss ∧
      0 ≤ (sampleNet.computeLossParts zeroOutput [] squareDims 13).classLoss :=
  loss_terms_nonneg sampleNet zeroOutput [] squareDims 13
    (by norm_num [sampleNet, sampleConfig, TinyYolov2.config])
    (by norm_num [sampleNet, sampleConfig, TinyYolov2.config])
    (by norm_num [sampleNet, sampleConfig, TinyYolov2.config])
    (by norm_num [sampleNet, sampleConfig, TinyYolov2.config])

theorem totalLoss_eq_sum_of_terms_witness :
    (sampleNet.computeLossParts zeroOutput [] squareDims 13).totalLoss =
        (sampleNet.computeLossParts zeroOutput [] squareDims 13).noObjectLoss +
          (sampleNet.computeLossParts zeroOutput [] squareDims 13).objectLoss +
          (sampleNet.computeLossParts zeroOutput [] squareDims 13).coordLoss +
          (sampleNet.computeLossParts zeroOutput [] squareDims 13).classLoss ∧
      (sampleNet.computeLossParts zeroOutput [] squareDims 13).classLoss = 0 :=
  ⟨(totalLoss_eq_sum_of_terms sampleNet zeroOutput [] squareDims 13).1,
    (totalLoss_eq_sum_of_terms sampleNet zeroOutput [] squareDims 13).2 rfl⟩

theorem inference_requires_loaded_params_witness :
    unloadedNet.forwardInput constBackbone sampleInput 416 = .error .notLoaded ∧
      unloadedNet.detect constBackbone sampleInput 416 13 squareDims squareDims none =
        .error .notLoaded :=
  inference_requires_loaded_params unloadedNet constBackbone sampleInput 416 13
    squareDims squareDims none rfl

theorem computeLoss_zero_resolution_error_witness :
    sampleNet.computeLoss zeroOutput [] ⟨0, 0⟩ 13 = .error .invalidInputSize :=
  computeLoss_zero_resolution_error sampleNet zeroOutput [] ⟨0, 0⟩ 13 (by simp)

/-- A two-class sample configuration with the flag absent. -/
def multiClassConfig : TinyYolov2Config :=
  ⟨none, ["cat", "dog"], [⟨1, 1⟩, ⟨2, 2⟩], 0.4, 1, 5, 1, 1⟩

theorem withClassScores_forced_by_classes_witness :
    (multiClassConfig.classes.length > 1 →
      (TinyYolov2.mk multiClassConfig none).withClassScores = true ∧
        (TinyYolov2.mk multiClassConfig none).boxEncodingSize =
          5 + multiClassConfig.classes.length) ∧
    ((TinyYolov2.mk multiClassConfig none).boxEncodingSize = 5 ↔
      multiClassConfig.classes.length ≤ 1 ∧
        multiClassConfig.withClassScores.getD false = false) :=
  withClassScores_forced_by_classes multiClassConfig none
    ⟨by simp [multiClassConfig], fun _ => by simp [multiClassConfig]⟩

/-! ### The threshold / suppression interaction

The score threshold filters on squashed *objectness* (line 248), while
suppression ranks candidates by the *final* score, objectness times the
selected class probability (line 264).  With class scores enabled the two
orders disagree, so raising the threshold can remove a candidate that was
suppressing several others and thereby *increase* the number of detections
`detect` returns.  The instance below exhibits this. -/

/-- The squash undoes its inverse: `sigmoid (logit p) = p` on `(0, 1)`. -/
theorem sigmoid_logit {p : ℝ} (h0 : 0 < p) (h1 : p < 1) : sigmoid (logit p) = p := by
  have h1p : (0 : ℝ) < 1 - p := by linarith
  unfold sigmoid logit
  rw [← Real.log_inv, Real.exp_log (inv_pos.2 (div_pos h0 h1p)), inv_div]
  rw [show (1 : ℝ) + (1 - p) / p = 1 / p by field_simp]
  rw [one_div_one_div]

/-- The two-class arg-max selection, written out. -/
theorem extractPredictedClass_two (score : ℕ → ℝ) :
    extractPredictedClass 2 score =
      if score 0 > score 1 then (score 0, 0) else (score 1, 1) := rfl

/-- A two-class, three-anchor configuration: anchor priors 2 × 2, 2 × 1 and
1 × 2 in cell units, suppression IoU threshold 2/5. -/
def cConfig : TinyYolov2Config :=
  ⟨none, ["a", "b"], [⟨2, 2⟩, ⟨2, 1⟩, ⟨1, 2⟩], 2 / 5, 1, 5, 1, 1⟩

/-- The configuration above with loaded parameters. -/
def cNet : TinyYolov2 :=
  ⟨cConfig, some ⟨()⟩⟩

/-- A raw output on a 1 × 1 grid.  Anchor 0 has squashed objectness `11/20`
and class probabilities `(99/100, 1/100)`; anchors 1 and 2 have squashed
objectness `9/10` and class probabilities `(11/20, 9/20)`.  All geometry
logits are zero, so each decoded box is its anchor prior centered in the
cell. -/
def cOut : YoloOutput := fun _ _ a ch =>
  if ch = 4 then (if a = 0 then logit (11 / 20) else logit (9 / 10))
  else if ch = 5 then (if a = 0 then Real.log 99 else Real.log 11)
  else if ch = 6 then (if a = 0 then 0 else Real.log 9)
  else 0

/-- A backbone producing `cOut`. -/
def cBackbone : NetParams → NetInput → ℕ → YoloOutput :=
  fun _ _ _ => cOut

/-- The number of detections `detect` returns on the fixed input above as a
function of the score threshold (working resolution 1, 1 × 1 grid, square
unit dimensions). -/
def detectCount (scoreThreshold : Option ℝ) : ℕ :=
  match cNet.detect cBackbone sampleInput 1 1 ⟨1, 1⟩ ⟨1, 1⟩ scoreThreshold with
  | .error _ => 0
  | .ok detections => detections.length

theorem cCsA0 : classScoresAt cNet cOut 0 0 0 0 = 99 / 100 := by
  unfold classScoresAt
  rw [show cNet.config.classes.length = 2 from rfl]
  rw [Finset.sum_range_succ, Finset.sum_range_succ, Finset.sum_range_zero]
  rw [show cOut 0 0 0 (5 + 0) = Real.log 99 from rfl,
    show cOut 0 0 0 (5 + 1) = (0 : ℝ) from rfl]
  rw [Real.exp_log (by norm_num), Real.exp_zero]
  norm_num

theorem cCsA1 : classScoresAt cNet cOut 0 0 0 1 = 1 / 100 := by
  unfold classScoresAt
  rw [show cNet.config.classes.length = 2 from rfl]
  rw [Finset.sum_range_succ, Finset.sum_range_succ, Finset.sum_range_zero]
  rw [show cOut 0 0 0 (5 + 0) = Real.log 99 from rfl,
    show cOut 0 0 0 (5 + 1) = (0 : ℝ) from rfl]
  rw [Real.exp_log (by norm_num), Real.exp_zero]
  norm_num

theorem cCsB0 : classScoresAt cNet cOut 0 0 1 0 = 11 / 20 := by
  unfold classScoresAt
  rw [show cNet.config.classes.length = 2 from rfl]
  rw [Finset.sum_range_succ, Finset.sum_range_succ, Finset.sum_range_zero]
  rw [show cOut 0 0 1 (5 + 0) = Real.log 11 from rfl,
    show cOut 0 0 1 (5 + 1) = Real.log 9 from rfl]
  rw [Real.exp_log (by norm_num), Real.exp_log (by norm_num)]
  norm_num

theorem cCsB1 : classScoresAt cNet cOut 0 0 1 1 = 9 / 20 := by
  unfold classScoresAt
  rw [show cNet.config.classes.length = 2 from rfl]
  rw [Finset.sum_range_succ, Finset.sum_range_succ, Finset.sum_range_zero]
  rw [show cOut 0 0 1 (5 + 0) = Real.log 11 from rfl,
    show cOut 0 0 1 (5 + 1) = Real.log 9 from rfl]
  rw [Real.exp_log (by norm_num), Real.exp_log (by norm_num)]
  norm_num

theorem cCsC0 : classScoresAt cNet cOut 0 0 2 0 = 11 / 20 := by
  unfold classScoresAt
  rw [show cNet.config.classes.length = 2 from rfl]
  rw [Finset.sum_range_succ, Finset.sum_range_succ, Finset.sum_range_zero]
  rw [show cOut 0 0 2 (5 + 0) = Real.log 11 from rfl,
    show cOut 0 0 2 (5 + 1) = Real.log 9 from rfl]
  rw [Real.exp_log (by norm_num), Real.exp_log (by norm_num)]
  norm_num

theorem cCsC1 : classScoresAt cNet cOut 0 0 2 1 = 9 / 20 := by
  unfold classScoresAt
  rw [show cNet.config.classes.length = 2 from rfl]
  rw [Finset.sum_range_succ, Finset.sum_range_succ, Finset.sum_range_zero]
  rw [show cOut 0 0 2 (5 + 0) = Real.log 11 from rfl,
    show cOut 0 0 2 (5 + 1) = Real.log 9 from rfl]
  rw [Real.exp_log (by norm_num), Real.exp_log (by norm_num)]
  norm_num

theorem cClsA : extractPredictedClass cNet.config.classes.length
    (fun i => classScoresAt cNet cOut 0 0 0 i) = (99 / 100, 0) := by
  rw [show cNet.config.classes.length = 2 from rfl, extractPredictedClass_two,
    cCsA0, cCsA1, if_pos (by norm_num : (99 : ℝ) / 100 > 1 / 100)]

theorem cClsB : extractPredictedClass cNet.config.classes.length
    (fun i => classScoresAt cNet cOut 0 0 1 i) = (11 / 20, 0) := by
  rw [show cNet.config.classes.length = 2 from rfl, extractPredictedClass_two,
    cCsB0, cCsB1, if_pos (by norm_num : (11 : ℝ) / 20 > 9 / 20)]

theorem cClsC : extractPredictedClass cNet.config.classes.length
    (fun i => classScoresAt cNet cOut 0 0 2 i) = (11 / 20, 0) := by
  rw [show cNet.config.classes.length = 2 from rfl, extractPredictedClass_two,
    cCsC0, cCsC1, if_pos (by norm_num : (11 : ℝ) / 20 > 9 / 20)]

theorem cSlotA : slotResult cNet cOut 1 ⟨1, 1⟩ 0 0 0 =
    ⟨⟨-(1 / 2), -(1 / 2), 3 / 2, 3 / 2⟩, 1089 / 2000, 0, 0, 0, 0⟩ := by
  have e4 : sigmoid (cOut 0 0 0 4) = 11 / 20 := by
    rw [show cOut 0 0 0 4 = logit (11 / 20) from rfl]
    exact sigmoid_logit (by norm_num) (by norm_num)
  simp only [slotResult]
  rw [if_pos (show cNet.withClassScores = true from rfl), cClsA]
  simp only [show cOut 0 0 0 0 = 0 from rfl, show cOut 0 0 0 1 = 0 from rfl,
    show cOut 0 0 0 2 = 0 from rfl, show cOut 0 0 0 3 = 0 from rfl,
    show (cNet.anchorAt 0).x = (2 : ℝ) from rfl, show (cNet.anchorAt 0).y = (2 : ℝ) from rfl,
    sigmoid_zero, Real.exp_zero, e4, Nat.cast_zero, Nat.cast_one]
  norm_num [DetectionResult.mk.injEq, BoundingBox.mk.injEq, max_self]

theorem cSlotB : slotResult cNet cOut 1 ⟨1, 1⟩ 0 0 1 =
    ⟨⟨-(1 / 2), 0, 3 / 2, 1⟩, 99 / 200, 0, 0, 0, 1⟩ := by
  have e4 : sigmoid (cOut 0 0 1 4) = 9 / 10 := by
    rw [show cOut 0 0 1 4 = logit (9 / 10) from rfl]
    exact sigmoid_logit (by norm_num) (by norm_num)
  simp only [slotResult]
  rw [if_pos (show cNet.withClassScores = true from rfl), cClsB]
  simp only [show cOut 0 0 1 0 = 0 from rfl, show cOut 0 0 1 1 = 0 from rfl,
    show cOut 0 0 1 2 = 0 from rfl, show cOut 0 0 1 3 = 0 from rfl,
    show (cNet.anchorAt 1).x = (2 : ℝ) from rfl, show (cNet.anchorAt 1).y = (1 : ℝ) from rfl,
    sigmoid_zero, Real.exp_zero, e4, Nat.cast_zero, Nat.cast_one]
  norm_num [DetectionResult.mk.injEq, BoundingBox.mk.injEq, max_self]

theorem cSlotC : slotResult cNet cOut 1 ⟨1, 1⟩ 0 0 2 =
    ⟨⟨0, -(1 / 2), 1, 3 / 2⟩, 99 / 200, 0, 0, 0, 2⟩ := by
  have e4 : sigmoid (cOut 0 0 2 4) = 9 / 10 := by
    rw [show cOut 0 0 2 4 = logit (9 / 10) from rfl]
    exact sigmoid_logit (by norm_num) (by norm_num)
  simp only [slotResult]
  rw [if_pos (show cNet.withClassScores = true from rfl), cClsC]
  simp only [show cOut 0 0 2 0 = 0 from rfl, show cOut 0 0 2 1 = 0 from rfl,
    show cOut 0 0 2 2 = 0 from rfl, show cOut 0 0 2 3 = 0 from rfl,
    show (cNet.anchorAt 2).x = (1 : ℝ) from rfl, show (cNet.anchorAt 2).y = (2 : ℝ) from rfl,
    sigmoid_zero, Real.exp_zero, e4, Nat.cast_zero, Nat.cast_one]
  norm_num [DetectionResult.mk.injEq, BoundingBox.mk.injEq, max_self]

theorem cExtractLow : cNet.extractBoxes cOut 1 ⟨1, 1⟩ (some (1 / 2)) =
    [⟨⟨-(1 / 2), -(1 / 2), 3 / 2, 3 / 2⟩, 1089 / 2000, 0, 0, 0, 0⟩,
      ⟨⟨-(1 / 2), 0, 3 / 2, 1⟩, 99 / 200, 0, 0, 0, 1⟩,
      ⟨⟨0, -(1 / 2), 1, 3 / 2⟩, 99 / 200, 0, 0, 0, 2⟩] := by
  have hA : passesThreshold (some (1 / 2)) (sigmoid (cOut 0 0 0 4)) = true := by
    rw [show cOut 0 0 0 4 = logit (11 / 20) from rfl,
      sigmoid_logit (by norm_num) (by norm_num)]
    simp only [passesThreshold, Bool.or_eq_true, decide_eq_true_eq]
    exact Or.inr (by norm_num)
  have hB : passesThreshold (some (1 / 2)) (sigmoid (cOut 0 0 1 4)) = true := by
    rw [show cOut 0 0 1 4 = logit (9 / 10) from rfl,
      sigmoid_logit (by norm_num) (by norm_num)]
    simp only [passesThreshold, Bool.or_eq_true, decide_eq_true_eq]
    exact Or.inr (by norm_num)
  have hC : passesThreshold (some (1 / 2)) (sigmoid (cOut 0 0 2 4)) = true := by
    rw [show cOut 0 0 2 4 = logit (9 / 10) from rfl,
      sigmoid_logit (by norm_num) (by norm_num)]
    simp only [passesThreshold, Bool.or_eq_true, decide_eq_true_eq]
    exact Or.inr (by norm_num)
  unfold TinyYolov2.extractBoxes
  rw [show cNet.config.anchors.length = 3 from rfl,
    show allSlots 1 3 = [(0, 0, 0), (0, 0, 1), (0, 0, 2)] from rfl]
  simp only [List.filter_cons, List.filter_nil, hA, hB, hC, if_true,
    List.map_cons, List.map_nil, cSlotA, cSlotB, cSlotC]

theorem cExtractHigh : cNet.extractBoxes cOut 1 ⟨1, 1⟩ (some (3 / 5)) =
    [⟨⟨-(1 / 2), 0, 3 / 2, 1⟩, 99 / 200, 0, 0, 0, 1⟩,
      ⟨⟨0, -(1 / 2), 1, 3 / 2⟩, 99 / 200, 0, 0, 0, 2⟩] := by
  have hA : passesThreshold (some (3 / 5)) (sigmoid (cOut 0 0 0 4)) = false := by
    rw [show cOut 0 0 0 4 = logit (11 / 20) from rfl,
      sigmoid_logit (by norm_num) (by norm_num)]
    simp only [passesThreshold, Bool.or_eq_false_iff, decide_eq_false_iff_not, not_lt]
    constructor <;> norm_num
  have hB : passesThreshold (some (3 / 5)) (sigmoid (cOut 0 0 1 4)) = true := by
    rw [show cOut 0 0 1 4 = logit (9 / 10) from rfl,
      sigmoid_logit (by norm_num) (by norm_num)]
    simp only [passesThreshold, Bool.or_eq_true, decide_eq_true_eq]
    exact Or.inr (by norm_num)
  have hC : passesThreshold (some (3 / 5)) (sigmoid (cOut 0 0 2 4)) = true := by
    rw [show cOut 0 0 2 4 = logit (9 / 10) from rfl,
      sigmoid_logit (by norm_num) (by norm_num)]
    simp only [passesThreshold, Bool.or_eq_true, decide_eq_true_eq]
    exact Or.inr (by norm_num)
  unfold TinyYolov2.extractBoxes
  rw [show cNet.config.anchors.length = 3 from rfl,
    show allSlots 1 3 = [(0, 0, 0), (0, 0, 1), (0, 0, 2)] from rfl]
  simp only [List.filter_cons, List.filter_nil, hA, hB, hC, if_true,
    Bool.false_eq_true, if_false, List.map_cons, List.map_nil, cSlotB, cSlotC]

/-- Greedy suppression on three candidates where the third and second tie
below the first and both overlap it beyond the threshold: only the first
survives. -/
theorem nms_three (b0 b1 b2 : BoundingBox) (s0 s1 s2 thr : ℝ)
    (h21 : s2 ≥ s1) (h20 : ¬ s2 ≥ s0)
    (hi20 : ¬ iou b2 b0 ≤ thr) (hi10 : ¬ iou b1 b0 ≤ thr) :
    nonMaxSuppression [b0, b1, b2] [s0, s1, s2] thr = [0] := by
  unfold nonMaxSuppression
  rw [show ([b0, b1, b2] : List BoundingBox).length = 3 from rfl,
    show List.range 3 = [0, 1, 2] from rfl]
  simp only [sortByScoreDesc, insertByScoreDesc]
  rw [show ([s0, s1, s2] : List ℝ).getD 2 0 = s2 from rfl,
    show ([s0, s1, s2] : List ℝ).getD 1 0 = s1 from rfl]
  rw [if_pos h21]
  simp only [insertByScoreDesc]
  rw [show ([s0, s1, s2] : List ℝ).getD 2 0 = s2 from rfl,
    show ([s0, s1, s2] : List ℝ).getD 1 0 = s1 from rfl,
    show ([s0, s1, s2] : List ℝ).getD 0 0 = s0 from rfl]
  rw [if_neg h20]
  simp only [List.foldl_cons, List.foldl_nil]
  rw [show ([b0, b1, b2] : List BoundingBox).getD 0 ⟨0, 0, 0, 0⟩ = b0 from rfl,
    show ([b0, b1, b2] : List BoundingBox).getD 2 ⟨0, 0, 0, 0⟩ = b2 from rfl,
    show ([b0, b1, b2] : List BoundingBox).getD 1 ⟨0, 0, 0, 0⟩ = b1 from rfl]
  simp [List.all_cons, List.all_nil, decide_eq_false hi20, decide_eq_false hi10]

/-- Greedy suppression on two tied candidates that do not overlap beyond the
threshold: both survive, highest first. -/
theorem nms_two (b0 b1 : BoundingBox) (s0 s1 thr : ℝ)
    (h10 : s1 ≥ s0) (hi01 : iou b0 b1 ≤ thr) :
    nonMaxSuppression [b0, b1] [s0, s1] thr = [1, 0] := by
  unfold nonMaxSuppression
  rw [show ([b0, b1] : List BoundingBox).length = 2 from rfl,
    show List.range 2 = [0, 1] from rfl]
  simp only [sortByScoreDesc, insertByScoreDesc]
  rw [show ([s0, s1] : List ℝ).getD 1 0 = s1 from rfl,
    show ([s0, s1] : List ℝ).getD 0 0 = s0 from rfl]
  rw [if_pos h10]
  simp only [List.foldl_cons, List.foldl_nil]
  rw [show ([b0, b1] : List BoundingBox).getD 1 ⟨0, 0, 0, 0⟩ = b1 from rfl,
    show ([b0, b1] : List BoundingBox).getD 0 ⟨0, 0, 0, 0⟩ = b0 from rfl]
  simp [List.all_cons, List.all_nil, decide_eq_true hi01]

theorem ciouCA :
    iou ⟨0, -(1 / 2), 1, 3 / 2⟩ ⟨-(1 / 2), -(1 / 2), 3 / 2, 3 / 2⟩ = 1 / 2 := by
  norm_num [iou, min_def, max_def]

theorem ciouBA :
    iou ⟨-(1 / 2), 0, 3 / 2, 1⟩ ⟨-(1 / 2), -(1 / 2), 3 / 2, 3 / 2⟩ = 1 / 2 := by
  norm_num [iou, min_def, max_def]

theorem ciouBC :
    iou ⟨-(1 / 2), 0, 3 / 2, 1⟩ ⟨0, -(1 / 2), 1, 3 / 2⟩ = 1 / 3 := by
  norm_num [iou, min_def, max_def]

theorem cNmsLow :
    nonMaxSuppression
        [⟨-(1 / 2), -(1 / 2), 3 / 2, 3 / 2⟩, ⟨-(1 / 2), 0, 3 / 2, 1⟩, ⟨0, -(1 / 2), 1, 3 / 2⟩]
        [1089 / 2000, 99 / 200, 99 / 200] (2 / 5) = [0] :=
  nms_three _ _ _ _ _ _ _ (le_refl _) (by norm_num) (by rw [ciouCA]; norm_num)
    (by rw [ciouBA]; norm_num)

theorem cNmsHigh :
    nonMaxSuppression [⟨-(1 / 2), 0, 3 / 2, 1⟩, ⟨0, -(1 / 2), 1, 3 / 2⟩]
        [99 / 200, 99 / 200] (2 / 5) = [1, 0] :=
  nms_two _ _ _ _ _ (le_refl _) (by rw [ciouBC]; norm_num)

theorem rescale_coe_one (b : BoundingBox) : b.rescale ((1 : ℕ) : ℝ) = b := by
  simp [BoundingBox.rescale]

/-- When the parameters are loaded, `detect` succeeds and returns one
detection per index surviving suppression. -/
theorem detect_ok (net : TinyYolov2) (backbone : NetParams → NetInput → ℕ → YoloOutput)
    (input : NetInput) (inputSize numCells : ℕ) (rd idims : Dimensions)
    (th : Option ℝ) (p : NetParams) (hp : net.params = some p) :
    ∃ dets, net.detect backbone input inputSize numCells rd idims th = .ok dets ∧
      dets.length = (nonMaxSuppression
        (((net.extractBoxes (backbone p input inputSize) numCells rd th).map
            (fun r => r.box)).map (fun b => b.rescale inputSize))
        ((net.extractBoxes (backbone p input inputSize) numCells rd th).map
          (fun r => r.score))
        net.config.iouThreshold).length := by
  unfold TinyYolov2.detect TinyYolov2.forwardInput
  rw [hp]
  exact ⟨_, rfl, (List.length_map _ _).symm ▸ rfl⟩

theorem cDetectLow : detectCount (some (1 / 2)) = 1 := by
  obtain ⟨dets, hd, hlen⟩ :=
    detect_ok cNet cBackbone sampleInput 1 1 ⟨1, 1⟩ ⟨1, 1⟩ (some (1 / 2)) ⟨()⟩ rfl
  unfold detectCount
  rw [hd]
  show dets.length = 1
  rw [hlen, show cBackbone ⟨()⟩ sampleInput 1 = cOut from rfl, cExtractLow,
    show cNet.config.iouThreshold = (2 : ℝ) / 5 from rfl]
  simp only [List.map_cons, List.map_nil, rescale_coe_one]
  rw [cNmsLow]
  rfl

theorem cDetectHigh : detectCount (some (3 / 5)) = 2 := by
  obtain ⟨dets, hd, hlen⟩ :=
    detect_ok cNet cBackbone sampleInput 1 1 ⟨1, 1⟩ ⟨1, 1⟩ (some (3 / 5)) ⟨()⟩ rfl
  unfold detectCount
  rw [hd]
  show dets.length = 2
  rw [hlen, show cBackbone ⟨()⟩ sampleInput 1 = cOut from rfl, cExtractHigh,
    show cNet.config.iouThreshold = (2 : ℝ) / 5 from rfl]
  simp only [List.map_cons, List.map_nil, rescale_coe_one]
  rw [cNmsHigh]
  rfl

/-- **C3 (counterexample)**: raising the score threshold from 1/2 to 3/5 on
the fixed input `cOut` *increases* the number of detections `detect` returns
from 1 to 2: the lower threshold admits the high-class-probability candidate
that suppresses the other two, the higher threshold removes it (its squashed
objectness is only 11/20) and both remaining candidates survive. -/
theorem detect_count_not_antitone :
    (1 : ℝ) / 2 ≤ 3 / 5 ∧ detectCount (some (1 / 2)) = 1 ∧ detectCount (some (3 / 5)) = 2 ∧
      ¬ detectCount (some (3 / 5)) ≤ detectCount (some (1 / 2)) := by
  refine ⟨by norm_num, cDetectLow, cDetectHigh, ?_⟩
  rw [cDetectLow, cDetectHigh]
  omega

